import Mathlib

/-!
Shallow embedding of the Car Advisor backend (src/main.py, src/models.py).

Python floats are modelled as rationals (ℚ); `round(x, 2)` is modelled as
rounding `100*x` to the nearest integer and dividing by 100.  The tenure is
modelled as a natural number of years so that the compound-interest power
`(1 + r) ** tenure_months` is an integer power (the dispatcher only ever
calls the calculator with tenure 5).  A Python `ZeroDivisionError` is
modelled as `Option.none`.
-/

namespace CarAdvisor

/-- `round(x, 2)` of Python, over ℚ: round to the nearest hundredth (Python
breaks exact half-cent ties to even; no value in this development falls on a
tie, so round-half-up is used). -/
def round2 (q : ℚ) : ℚ := (⌊q * 100 + 1 / 2⌋ : ℚ) / 100

/-- Result dictionary of `calculate_emi` (keys `emi_amount`, `total_payment`,
`total_interest`). -/
structure EMIResult where
  emi_amount : ℚ
  total_payment : ℚ
  total_interest : ℚ
deriving Repr, DecidableEq

/-- `calculate_emi(principal, annual_rate, tenure_years)` from src/main.py
lines 29-41.  `none` models the unguarded `ZeroDivisionError`: either branch
divides by zero exactly when its denominator is zero. -/
def calculate_emi (principal annual_rate : ℚ) (tenure_years : ℕ) : Option EMIResult :=
  let monthly_rate : ℚ := annual_rate / 12 / 100
  let tenure_months : ℚ := (tenure_years : ℚ) * 12
  if monthly_rate = 0 then
    if tenure_months = 0 then none
    else
      let emi := principal / tenure_months
      let total_payment := emi * tenure_months
      some { emi_amount := round2 emi
             total_payment := round2 total_payment
             total_interest := round2 (total_payment - principal) }
  else
    let pw : ℚ := (1 + monthly_rate) ^ (tenure_years * 12)
    if pw - 1 = 0 then none
    else
      let emi := principal * monthly_rate * pw / (pw - 1)
      let total_payment := emi * tenure_months
      some { emi_amount := round2 emi
             total_payment := round2 total_payment
             total_interest := round2 (total_payment - principal) }

/-- A car record as declared in src/models.py (`CarSpecs`): the shape of the
objects in `data/cars.json`. -/
structure Car where
  name : String
  price : ℚ
  fuel_type : String
  seating_capacity : ℕ
  safety_rating : String
  model_year : ℕ
deriving Repr, DecidableEq

/-- Python `s.lower()` on the (ASCII) strings of this program: lowercase every
character. -/
def lowerChars (s : String) : List Char := s.data.map Char.toLower

/-- Python `a in b` on strings: `a` is a contiguous substring of `b`. -/
def strIn (a : String) (b : List Char) : Bool := decide (a.data <:+: b)

/-- The test `name.lower() in car["name"].lower()` of `get_car_by_name`. -/
def nameMatches (name : String) (car : Car) : Bool :=
  decide (lowerChars name <:+: lowerChars car.name)

/-- `get_car_by_name(name)` from src/main.py lines 44-48: first catalog record
whose name contains `name` case-insensitively, else `None`.  The process-wide
`cars_data` list is passed explicitly. -/
def get_car_by_name (cars_data : List Car) (name : String) : Option Car :=
  cars_data.find? (nameMatches name)

/-- `get_cars_by_budget(max_price)` from src/main.py lines 50-51. -/
def get_cars_by_budget (cars_data : List Car) (max_price : ℚ) : List Car :=
  cars_data.filter (fun car => car.price ≤ max_price)

/-- The dictionary returned by `apply_safety_rules` and by the static stubs in
`process_user_query`.  The numeric interpolation inside the source's message
strings is elided (no claim depends on it); the stable text is kept. -/
structure SafetyResult where
  approved : Bool
  message : String
deriving Repr, DecidableEq

/-- `apply_safety_rules(emi_amount, user_income)` from src/main.py lines 54-60.
`0.3` and `user_income / 12` are exact in ℚ. -/
def apply_safety_rules (emi_amount : ℚ) (user_income : Option ℚ) : SafetyResult :=
  match user_income with
  | none => { approved := true, message := "Income not provided - Skipping safety check" }
  | some income =>
    let max_emi := (income / 12) * (3 / 10)
    if emi_amount ≤ max_emi then { approved := true, message := "Safe EMI" }
    else { approved := false, message := "Risky EMI" }

/-- The keyword lists of `detect_intent` (src/main.py lines 65-71), in source
order, the duplicated `'emi'` included. -/
def emiWords : List String := ["emi", "loan", "finance", "monthly", "emi"]

def budgetWords : List String := ["budget", "lakhs", "crore", "price under"]

def compareWords : List String := ["compare", "vs", "versus"]

def searchWords : List String := ["find", "show", "which"]

/-- One `any(word in query_lower for word in ...)` membership test of
`detect_intent`. -/
def hasWord (q : String) (ws : List String) : Bool :=
  ws.any (fun w => strIn w (lowerChars q))

/-- `detect_intent(query)` from src/main.py lines 63-74. -/
def detect_intent (query : String) : String :=
  let query_lower := lowerChars query
  if emiWords.any (fun w => strIn w query_lower) then "emi_calculation"
  else if budgetWords.any (fun w => strIn w query_lower) then "budget_search"
  else if compareWords.any (fun w => strIn w query_lower) then "car_comparison"
  else if searchWords.any (fun w => strIn w query_lower) then "car_search"
  else "general_info"

/-- The `UserQuery` request body (src/main.py lines 18-21). -/
structure UserQuery where
  query : String
  user_income : Option ℚ := none
  max_budget : Option ℚ := none
deriving Repr, DecidableEq

/-- Python `x or d` for an optional float `x`: `None` and `0.0` are falsy, so
both fall back to the default. -/
def orDefault (x : Option ℚ) (d : ℚ) : ℚ :=
  match x with
  | none => d
  | some v => if v = 0 then d else v

/-- The variant `tool_result` value of `process_user_query`, one constructor
per intent branch. -/
inductive ToolOutput where
  | emi : EMIResult → ToolOutput
  | cars : List Car → ToolOutput
  | comparisonStub : ToolOutput
  | car : Option Car → ToolOutput
  | info : ℕ → ToolOutput
deriving Repr, DecidableEq

/-- Python `intent.replace('_', ' ')` (every keyword intent is one word or
uses single underscores, so character replacement is exact). -/
def replaceUnderscore (s : String) : String :=
  ⟨s.data.map (fun c => if c = '_' then ' ' else c)⟩

/-- The composite dictionary returned by `process_user_query`
(src/main.py lines 99-105). -/
structure QueryResult where
  intent : String
  user_query : String
  tool_output : ToolOutput
  safety_check : SafetyResult
  recommended_action : String
deriving Repr, DecidableEq

/-- `process_user_query(query_data)` from src/main.py lines 76-105.  The
process-wide `cars_data` is passed explicitly; `none` propagates a
`ZeroDivisionError` from `calculate_emi` (never triggered here, since the
tenure is the constant 5). -/
def process_user_query (cars_data : List Car) (query_data : UserQuery) : Option QueryResult :=
  let intent := detect_intent query_data.query
  let mk : ToolOutput → SafetyResult → QueryResult := fun tool_result safety_result =>
    { intent := intent
      user_query := query_data.query
      tool_output := tool_result
      safety_check := safety_result
      recommended_action := "Processed " ++ replaceUnderscore intent ++ " successfully" }
  if intent = "emi_calculation" then
    let principal := orDefault query_data.max_budget 1500000
    match calculate_emi principal (19 / 2) 5 with
    | none => none
    | some tool_result =>
      some (mk (ToolOutput.emi tool_result)
        (apply_safety_rules tool_result.emi_amount query_data.user_income))
  else if intent = "budget_search" then
    some (mk (ToolOutput.cars (get_cars_by_budget cars_data (orDefault query_data.max_budget 2000000)))
      { approved := true, message := "Budget search completed" })
  else if intent = "car_comparison" then
    some (mk ToolOutput.comparisonStub { approved := true, message := "Comparison ready" })
  else if intent = "car_search" then
    some (mk (ToolOutput.car (get_car_by_name cars_data query_data.query))
      { approved := true, message := "Car found" })
  else
    some (mk (ToolOutput.info cars_data.length) { approved := true, message := "General info" })

/-! ### Sample car records (shape of `data/cars.json`) used as concrete inputs -/

def altoCar : Car :=
  { name := "Maruti Alto", price := 450000, fuel_type := "Petrol",
    seating_capacity := 5, safety_rating := "2 Star", model_year := 2023 }

def cityCar : Car :=
  { name := "Honda City", price := 1200000, fuel_type := "Petrol",
    seating_capacity := 5, safety_rating := "5 Star", model_year := 2023 }

/-! ### Helper lemmas -/

/-- Rounding to 2 decimals moves a value by at most half a cent. -/
lemma round2_abs_sub (q : ℚ) : |round2 q - q| ≤ 1 / 200 := by
  have h1 : (⌊q * 100 + 1 / 2⌋ : ℚ) ≤ q * 100 + 1 / 2 := Int.floor_le _
  have h2 : q * 100 + 1 / 2 < (⌊q * 100 + 1 / 2⌋ : ℚ) + 1 := Int.lt_floor_add_one _
  rw [round2, abs_le]
  constructor <;> linarith

/-- For a positive tenure and nonnegative rate, `calculate_emi` takes no
zero-division branch: it returns the rounded fields built from the branch's
raw `emi` value. -/
lemma calculate_emi_pos (p r : ℚ) (t : ℕ) (hr : 0 ≤ r) (ht : 0 < t) :
    ∃ e : ℚ, calculate_emi p r t =
      some { emi_amount := round2 e,
             total_payment := round2 (e * ((t : ℚ) * 12)),
             total_interest := round2 (e * ((t : ℚ) * 12) - p) } := by
  have htq : (0 : ℚ) < (t : ℚ) := by exact_mod_cast ht
  have htm : ¬((t : ℚ) * 12 = 0) := by positivity
  by_cases hm : r / 12 / 100 = 0
  · refine ⟨p / ((t : ℚ) * 12), ?_⟩
    simp only [calculate_emi]
    rw [if_pos hm, if_neg htm]
  · have hr0 : 0 < r / 12 / 100 := lt_of_le_of_ne (by positivity) (Ne.symm hm)
    have hpw : 1 < (1 + r / 12 / 100) ^ (t * 12) :=
      one_lt_pow₀ (by linarith) (by omega)
    have hne : ¬((1 + r / 12 / 100) ^ (t * 12) - 1 = 0) := by
      intro h; rw [sub_eq_zero] at h; exact absurd h.symm (ne_of_lt hpw)
    refine ⟨p * (r / 12 / 100) * (1 + r / 12 / 100) ^ (t * 12) /
      ((1 + r / 12 / 100) ^ (t * 12) - 1), ?_⟩
    simp only [calculate_emi]
    rw [if_neg hm, if_neg hne]

/-! ### Claims -/

/-- C1: for every principal > 0, annual_rate ≥ 0 and tenure_years > 0,
`calculate_emi` succeeds and its `total_payment` equals
`emi_amount * tenure_months` up to the 2-decimal rounding of both fields,
while `total_interest` equals `total_payment - principal` up to the 2-decimal
rounding of both fields. -/
theorem emi_totals_consistent (principal annual_rate : ℚ) (tenure_years : ℕ)
    (_hp : 0 < principal) (hr : 0 ≤ annual_rate) (ht : 0 < tenure_years) :
    ∃ res, calculate_emi principal annual_rate tenure_years = some res ∧
      |res.total_payment - res.emi_amount * ((tenure_years : ℚ) * 12)| ≤
        ((tenure_years : ℚ) * 12 + 1) / 200 ∧
      |res.total_interest - (res.total_payment - principal)| ≤ 1 / 100 := by
  obtain ⟨e, he⟩ := calculate_emi_pos principal annual_rate tenure_years hr ht
  refine ⟨_, he, ?_, ?_⟩
  all_goals
    simp only
  · have hn : (0 : ℚ) ≤ (tenure_years : ℚ) * 12 := by positivity
    have a1 := round2_abs_sub (e * ((tenure_years : ℚ) * 12))
    have a2 := round2_abs_sub e
    rw [abs_le] at a1 a2 ⊢
    have hlo : -(1 / 200) * ((tenure_years : ℚ) * 12) ≤
        (round2 e - e) * ((tenure_years : ℚ) * 12) :=
      mul_le_mul_of_nonneg_right (by linarith) hn
    have hhi : (round2 e - e) * ((tenure_years : ℚ) * 12) ≤
        (1 / 200) * ((tenure_years : ℚ) * 12) :=
      mul_le_mul_of_nonneg_right (by linarith) hn
    constructor <;> nlinarith [hlo, hhi, a1.1, a1.2]
  · have a1 := round2_abs_sub (e * ((tenure_years : ℚ) * 12))
    have a3 := round2_abs_sub (e * ((tenure_years : ℚ) * 12) - principal)
    rw [abs_le] at a1 a3 ⊢
    constructor <;> linarith

/-- Witness for C1 at principal 1200, rate 0, tenure 1 year. -/
theorem emi_totals_consistent_witness :
    (0 : ℚ) < 1200 ∧ (0 : ℚ) ≤ 0 ∧ 0 < 1 ∧
    (∃ res, calculate_emi 1200 0 1 = some res ∧
      |res.total_payment - res.emi_amount * ((1 : ℚ) * 12)| ≤ ((1 : ℚ) * 12 + 1) / 200 ∧
      |res.total_interest - (res.total_payment - 1200)| ≤ 1 / 100) :=
  ⟨by norm_num, le_refl 0, Nat.one_pos,
    by exact_mod_cast emi_totals_consistent 1200 0 1 (by norm_num) (le_refl 0) Nat.one_pos⟩

/-- C8: with tenure_years > 0 and annual_rate ≥ 0, `calculate_emi` hits no
zero denominator (the `monthly_rate == 0` branch divides by a nonzero
`tenure_months` and the compound branch's `(1+r)^n - 1` is nonzero), whereas
tenure_years = 0 hits the unguarded division by zero (`none`), not a
structured error value. -/
theorem emi_zero_division (principal annual_rate : ℚ) (tenure_years : ℕ)
    (hr : 0 ≤ annual_rate) (ht : 0 < tenure_years) :
    (calculate_emi principal annual_rate tenure_years).isSome = true ∧
    calculate_emi principal annual_rate 0 = none := by
  constructor
  · obtain ⟨e, he⟩ := calculate_emi_pos principal annual_rate tenure_years hr ht
    rw [he]; rfl
  · simp only [calculate_emi]
    by_cases hm : annual_rate / 12 / 100 = 0
    · rw [if_pos hm, if_pos (by norm_num)]
    · rw [if_neg hm, if_pos (by norm_num)]

/-- Witness for C8 at principal 100, rate 19/2, tenure 5 years. -/
theorem emi_zero_division_witness :
    (0 : ℚ) ≤ 19 / 2 ∧ 0 < 5 ∧
    ((calculate_emi 100 (19 / 2) 5).isSome = true ∧ calculate_emi 100 (19 / 2) 0 = none) :=
  ⟨by norm_num, by norm_num,
    emi_zero_division 100 (19 / 2) 5 (by norm_num) (by norm_num)⟩

/-- C4: `apply_safety_rules` approves when income is absent; with an income,
it approves exactly when the EMI is at most 30% of monthly income, the
boundary (equality) counted as approved. -/
theorem safety_rules_boundary (emi_amount : ℚ) :
    (apply_safety_rules emi_amount none).approved = true ∧
    (∀ income : ℚ, (apply_safety_rules emi_amount (some income)).approved = true ↔
      emi_amount ≤ income / 12 * (3 / 10)) ∧
    (∀ income : ℚ, (apply_safety_rules (income / 12 * (3 / 10)) (some income)).approved = true) := by
  refine ⟨rfl, fun income => ?_, fun income => ?_⟩
  · simp only [apply_safety_rules]
    split
    · next h => simpa using h
    · next h => simpa using h
  · simp [apply_safety_rules]

/-- C2: `detect_intent` tries the keyword groups in the fixed order
emi_calculation, budget_search, car_comparison, car_search, general_info and
the first hit wins; in particular a query containing both "emi" and
"compare" lands in emi_calculation. -/
theorem detect_intent_priority (q : String) :
    (hasWord q emiWords = true → detect_intent q = "emi_calculation") ∧
    (hasWord q emiWords = false → hasWord q budgetWords = true →
      detect_intent q = "budget_search") ∧
    (hasWord q emiWords = false → hasWord q budgetWords = false →
      hasWord q compareWords = true → detect_intent q = "car_comparison") ∧
    (hasWord q emiWords = false → hasWord q budgetWords = false →
      hasWord q compareWords = false → hasWord q searchWords = true →
      detect_intent q = "car_search") ∧
    (hasWord q emiWords = false → hasWord q budgetWords = false →
      hasWord q compareWords = false → hasWord q searchWords = false →
      detect_intent q = "general_info") ∧
    (strIn "emi" (lowerChars q) = true → strIn "compare" (lowerChars q) = true →
      detect_intent q = "emi_calculation") := by
  have hq : detect_intent q =
      if hasWord q emiWords then "emi_calculation"
      else if hasWord q budgetWords then "budget_search"
      else if hasWord q compareWords then "car_comparison"
      else if hasWord q searchWords then "car_search"
      else "general_info" := rfl
  refine ⟨fun h1 => ?_, fun h1 h2 => ?_, fun h1 h2 h3 => ?_,
    fun h1 h2 h3 h4 => ?_, fun h1 h2 h3 h4 => ?_, fun h1 h2 => ?_⟩
  · rw [hq, if_pos h1]
  · rw [hq, if_neg (by simp [h1]), if_pos h2]
  · rw [hq, if_neg (by simp [h1]), if_neg (by simp [h2]), if_pos h3]
  · rw [hq, if_neg (by simp [h1]), if_neg (by simp [h2]), if_neg (by simp [h3]),
      if_pos h4]
  · rw [hq, if_neg (by simp [h1]), if_neg (by simp [h2]), if_neg (by simp [h3]),
      if_neg (by simp [h4])]
  · have hemi : hasWord q emiWords = true := by simp [hasWord, emiWords, h1]
    rw [hq, if_pos hemi]

/-- Witness for C2 on the query "compare emi of two cars". -/
theorem detect_intent_priority_witness :
    strIn "emi" (lowerChars "compare emi of two cars") = true ∧
    strIn "compare" (lowerChars "compare emi of two cars") = true ∧
    detect_intent "compare emi of two cars" = "emi_calculation" :=
  ⟨by decide, by decide,
    (detect_intent_priority "compare emi of two cars").2.2.2.2.2 (by decide) (by decide)⟩

/-- C5: the budget filter returns exactly the records priced within the
threshold, as an order-preserving subsequence of the catalog, and filtering
its own output with the same threshold changes nothing. -/
theorem budget_filter_spec (cars_data : List Car) (max_price : ℚ) :
    (∀ c ∈ get_cars_by_budget cars_data max_price, c.price ≤ max_price) ∧
    (∀ c ∈ cars_data, c.price ≤ max_price → c ∈ get_cars_by_budget cars_data max_price) ∧
    List.Sublist (get_cars_by_budget cars_data max_price) cars_data ∧
    get_cars_by_budget (get_cars_by_budget cars_data max_price) max_price =
      get_cars_by_budget cars_data max_price := by
  refine ⟨?_, ?_, List.filter_sublist cars_data, ?_⟩
  · intro c hc
    simp only [get_cars_by_budget, List.mem_filter, decide_eq_true_eq] at hc
    exact hc.2
  · intro c hc hle
    simp only [get_cars_by_budget, List.mem_filter, decide_eq_true_eq]
    exact ⟨hc, hle⟩
  · simp only [get_cars_by_budget]
    exact List.filter_eq_self.mpr fun c hc => (List.mem_filter.mp hc).2

/-- Witness for C5 on a two-car catalog with threshold 500000. -/
theorem budget_filter_spec_witness :
    altoCar ∈ get_cars_by_budget [cityCar, altoCar] 500000 ∧
    get_cars_by_budget (get_cars_by_budget [cityCar, altoCar] 500000) 500000 =
      get_cars_by_budget [cityCar, altoCar] 500000 :=
  ⟨(budget_filter_spec [cityCar, altoCar] 500000).2.1 altoCar (by simp)
      (by norm_num [altoCar]),
    (budget_filter_spec [cityCar, altoCar] 500000).2.2.2⟩

/-- Every record matches the empty query: the empty string is a substring of
every name. -/
lemma nameMatches_empty (c : Car) : nameMatches "" c = true := by
  rw [nameMatches]
  exact decide_eq_true List.nil_infix

/-- A successful `find?` returns the first satisfying element: everything
before it in the list fails the predicate. -/
lemma find?_first {α : Type} (p : α → Bool) (l : List α) (a : α)
    (h : l.find? p = some a) :
    p a = true ∧ ∃ l₁ l₂, l = l₁ ++ a :: l₂ ∧ ∀ b ∈ l₁, p b = false := by
  induction l with
  | nil => simp [List.find?] at h
  | cons x xs ih =>
    by_cases hx : p x = true
    · rw [List.find?_cons_of_pos _ hx] at h
      obtain rfl : x = a := by injection h
      exact ⟨hx, [], xs, rfl, by simp⟩
    · rw [List.find?_cons_of_neg _ (by simpa using hx)] at h
      obtain ⟨hpa, l₁, l₂, heq, hall⟩ := ih h
      refine ⟨hpa, x :: l₁, l₂, by rw [heq]; rfl, ?_⟩
      intro b hb
      rcases List.mem_cons.mp hb with rfl | hb'
      · simpa using hx
      · exact hall b hb'

/-- C6: the name lookup returns the first catalog record whose name contains
the query case-insensitively, `none` when nothing matches, and the lookups
for "ALTO" and "alto" agree on every catalog. -/
theorem name_lookup_spec (cars_data : List Car) (q : String) :
    (∀ c, get_car_by_name cars_data q = some c →
      nameMatches q c = true ∧
      ∃ l₁ l₂, cars_data = l₁ ++ c :: l₂ ∧ ∀ b ∈ l₁, nameMatches q b = false) ∧
    (get_car_by_name cars_data q = none ↔ ∀ c ∈ cars_data, nameMatches q c = false) ∧
    get_car_by_name cars_data "ALTO" = get_car_by_name cars_data "alto" := by
  refine ⟨fun c hc => find?_first _ _ _ hc, ?_, ?_⟩
  · rw [get_car_by_name, List.find?_eq_none]
    constructor
    · intro h c hc
      simpa using h c hc
    · intro h c hc
      simp [h c hc]
  · have hlow : nameMatches "ALTO" = nameMatches "alto" := by
      funext c
      rw [nameMatches, nameMatches,
        show lowerChars "ALTO" = lowerChars "alto" from by decide]
    rw [get_car_by_name, get_car_by_name, hlow]

/-- Witness for C6: looking up "alto" in a two-car catalog returns the Alto,
with the non-matching record in front of it. -/
theorem name_lookup_spec_witness :
    nameMatches "alto" altoCar = true ∧
    ∃ l₁ l₂, [cityCar, altoCar] = l₁ ++ altoCar :: l₂ ∧
      ∀ b ∈ l₁, nameMatches "alto" b = false :=
  (name_lookup_spec [cityCar, altoCar] "alto").1 altoCar rfl

/-- C10: with the empty query every record matches, so `get_car_by_name`
returns the catalog's first record, and it returns `none` exactly when the
catalog is empty. -/
theorem empty_query_lookup (cars_data : List Car) :
    (cars_data ≠ [] → get_car_by_name cars_data "" = cars_data.head?) ∧
    (get_car_by_name cars_data "" = none ↔ cars_data = []) := by
  constructor
  · intro hne
    cases cars_data with
    | nil => exact absurd rfl hne
    | cons x xs => rw [get_car_by_name, List.find?_cons_of_pos _ (nameMatches_empty x)]; rfl
  · rw [get_car_by_name, List.find?_eq_none]
    constructor
    · intro h
      cases cars_data with
      | nil => rfl
      | cons x xs => exact absurd (nameMatches_empty x) (by simpa using h x (by simp))
    · intro h
      subst h
      simp

/-- Witness for C10 on a one-car catalog. -/
theorem empty_query_lookup_witness :
    [altoCar] ≠ [] ∧ get_car_by_name [altoCar] "" = [altoCar].head? :=
  ⟨by simp, (empty_query_lookup [altoCar]).1 (by simp)⟩

/-! ### Dispatcher branch lemmas -/

/-- On the emi_calculation intent, `process_user_query` is the mapped image
of the EMI computation at the `or`-defaulted principal, fixed rate 9.5 and
fixed tenure 5 years. -/
lemma process_emi_eq (cars_data : List Car) (u : UserQuery)
    (h : detect_intent u.query = "emi_calculation") :
    process_user_query cars_data u =
      (calculate_emi (orDefault u.max_budget 1500000) (19 / 2) 5).map (fun r =>
        { intent := "emi_calculation", user_query := u.query,
          tool_output := ToolOutput.emi r,
          safety_check := apply_safety_rules r.emi_amount u.user_income,
          recommended_action := "Processed emi calculation successfully" }) := by
  have hra : "Processed " ++ replaceUnderscore "emi_calculation" ++ " successfully" =
      "Processed emi calculation successfully" := by decide
  cases hcalc : calculate_emi (orDefault u.max_budget 1500000) (19 / 2) 5 with
  | none => simp [process_user_query, h, hcalc]
  | some r => simp [process_user_query, h, hcalc, hra]

lemma process_budget_eq (cars_data : List Car) (u : UserQuery)
    (h : detect_intent u.query = "budget_search") :
    process_user_query cars_data u = some
      { intent := "budget_search", user_query := u.query,
        tool_output := ToolOutput.cars (get_cars_by_budget cars_data (orDefault u.max_budget 2000000)),
        safety_check := { approved := true, message := "Budget search completed" },
        recommended_action := "Processed budget search successfully" } := by
  have hra : "Processed " ++ replaceUnderscore "budget_search" ++ " successfully" =
      "Processed budget search successfully" := by decide
  simp [process_user_query, h, hra]

lemma process_compare_eq (cars_data : List Car) (u : UserQuery)
    (h : detect_intent u.query = "car_comparison") :
    process_user_query cars_data u = some
      { intent := "car_comparison", user_query := u.query,
        tool_output := ToolOutput.comparisonStub,
        safety_check := { approved := true, message := "Comparison ready" },
        recommended_action := "Processed car comparison successfully" } := by
  have hra : "Processed " ++ replaceUnderscore "car_comparison" ++ " successfully" =
      "Processed car comparison successfully" := by decide
  simp [process_user_query, h, hra]

lemma process_search_eq (cars_data : List Car) (u : UserQuery)
    (h : detect_intent u.query = "car_search") :
    process_user_query cars_data u = some
      { intent := "car_search", user_query := u.query,
        tool_output := ToolOutput.car (get_car_by_name cars_data u.query),
        safety_check := { approved := true, message := "Car found" },
        recommended_action := "Processed car search successfully" } := by
  have hra : "Processed " ++ replaceUnderscore "car_search" ++ " successfully" =
      "Processed car search successfully" := by decide
  simp [process_user_query, h, hra]

lemma process_general_eq (cars_data : List Car) (u : UserQuery)
    (h : detect_intent u.query = "general_info") :
    process_user_query cars_data u = some
      { intent := "general_info", user_query := u.query,
        tool_output := ToolOutput.info cars_data.length,
        safety_check := { approved := true, message := "General info" },
        recommended_action := "Processed general info successfully" } := by
  have hra : "Processed " ++ replaceUnderscore "general_info" ++ " successfully" =
      "Processed general info successfully" := by decide
  simp [process_user_query, h, hra]

/-- `detect_intent` only ever produces the five intent strings. -/
lemma detect_intent_mem (q : String) :
    detect_intent q = "emi_calculation" ∨ detect_intent q = "budget_search" ∨
    detect_intent q = "car_comparison" ∨ detect_intent q = "car_search" ∨
    detect_intent q = "general_info" := by
  simp only [detect_intent]
  split_ifs <;> simp

/-- C9: `detect_intent` returns one of the five intent strings, and
`process_user_query` always succeeds with a composite echoing the detected
intent and the raw query. -/
theorem process_always_composite (cars_data : List Car) (u : UserQuery) :
    (detect_intent u.query = "emi_calculation" ∨ detect_intent u.query = "budget_search" ∨
     detect_intent u.query = "car_comparison" ∨ detect_intent u.query = "car_search" ∨
     detect_intent u.query = "general_info") ∧
    ∃ res, process_user_query cars_data u = some res ∧
      res.intent = detect_intent u.query ∧ res.user_query = u.query := by
  have hmem := detect_intent_mem u.query
  refine ⟨hmem, ?_⟩
  rcases hmem with h | h | h | h | h
  · obtain ⟨e, he⟩ :=
      calculate_emi_pos (orDefault u.max_budget 1500000) (19 / 2) 5 (by norm_num) (by norm_num)
    rw [process_emi_eq cars_data u h, he, Option.map_some']
    exact ⟨_, rfl, h.symm, rfl⟩
  · rw [process_budget_eq cars_data u h]
    exact ⟨_, rfl, h.symm, rfl⟩
  · rw [process_compare_eq cars_data u h]
    exact ⟨_, rfl, h.symm, rfl⟩
  · rw [process_search_eq cars_data u h]
    exact ⟨_, rfl, h.symm, rfl⟩
  · rw [process_general_eq cars_data u h]
    exact ⟨_, rfl, h.symm, rfl⟩

/-- The EMI of the default principal 1,500,000 at 9.5% over 5 years. -/
lemma calc_emi_default : calculate_emi 1500000 (19 / 2) 5 =
    some { emi_amount := 3150279 / 100, total_payment := 47254188 / 25,
           total_interest := 9754188 / 25 } := by
  norm_num [calculate_emi, round2]

/-- C3 counterexample: `max_budget = 0` is provided, yet the emi branch
computes the EMI of the default 1,500,000 (Python `or` treats 0.0 as falsy),
not the EMI of principal 0 (which would be 0). -/
theorem emi_principal_counterexample :
    (process_user_query [] { query := "emi", user_income := none, max_budget := some 0 }).map
        (fun r => r.tool_output) =
      some (ToolOutput.emi
        { emi_amount := 3150279 / 100, total_payment := 47254188 / 25,
          total_interest := 9754188 / 25 }) ∧
    calculate_emi 0 (19 / 2) 5 =
      some { emi_amount := 0, total_payment := 0, total_interest := 0 } ∧
    (3150279 / 100 : ℚ) ≠ 0 := by
  refine ⟨?_, ?_, by norm_num⟩
  · rw [process_emi_eq _ _ (by decide),
      show orDefault (some 0) 1500000 = 1500000 from by norm_num [orDefault],
      calc_emi_default]
    rfl
  · norm_num [calculate_emi, round2]

/-- C3 (amended): on the emi_calculation intent the principal is `max_budget`
when provided and nonzero, and the default 1,500,000 when it is absent or 0
(Python `or`); the rate is fixed at 9.5 and the tenure at 5 years; the
request `{query: "emi for car", user_income: 600000}` yields intent
emi_calculation, the EMI of 1,500,000 at 9.5% over 5 years, and
`safety_check.approved = false`. -/
theorem emi_dispatch_constants (cars_data : List Car) (u : UserQuery)
    (h : detect_intent u.query = "emi_calculation") :
    process_user_query cars_data u =
      (calculate_emi (orDefault u.max_budget 1500000) (19 / 2) 5).map (fun r =>
        { intent := "emi_calculation", user_query := u.query,
          tool_output := ToolOutput.emi r,
          safety_check := apply_safety_rules r.emi_amount u.user_income,
          recommended_action := "Processed emi calculation successfully" }) ∧
    (∀ b : ℚ, b ≠ 0 → orDefault (some b) 1500000 = b) ∧
    orDefault none 1500000 = 1500000 ∧
    orDefault (some 0) 1500000 = 1500000 ∧
    (process_user_query cars_data
        { query := "emi for car", user_income := some 600000, max_budget := none }).map
        (fun r => (r.intent, r.tool_output, r.safety_check.approved)) =
      some ("emi_calculation",
        ToolOutput.emi { emi_amount := 3150279 / 100, total_payment := 47254188 / 25,
                         total_interest := 9754188 / 25 },
        false) := by
  refine ⟨process_emi_eq cars_data u h, fun b hb => by simp [orDefault, hb], rfl,
    by norm_num [orDefault], ?_⟩
  rw [process_emi_eq cars_data _ (by decide),
    show orDefault (none : Option ℚ) 1500000 = 1500000 from rfl, calc_emi_default]
  have hsafe : apply_safety_rules (3150279 / 100) (some 600000) =
      { approved := false, message := "Risky EMI" } := by
    norm_num [apply_safety_rules]
  simp [hsafe]

/-- Witness for C3 (amended) at the request `{query: "emi for car",
user_income: 600000}` with an empty catalog. -/
theorem emi_dispatch_constants_witness :
    detect_intent "emi for car" = "emi_calculation" ∧
    (process_user_query [] { query := "emi for car", user_income := some 600000, max_budget := none } =
      (calculate_emi (orDefault (none : Option ℚ) 1500000) (19 / 2) 5).map (fun r =>
        { intent := "emi_calculation", user_query := "emi for car",
          tool_output := ToolOutput.emi r,
          safety_check := apply_safety_rules r.emi_amount (some 600000),
          recommended_action := "Processed emi calculation successfully" }) ∧
    (∀ b : ℚ, b ≠ 0 → orDefault (some b) 1500000 = b) ∧
    orDefault none 1500000 = 1500000 ∧
    orDefault (some 0) 1500000 = 1500000 ∧
    (process_user_query []
        { query := "emi for car", user_income := some 600000, max_budget := none }).map
        (fun r => (r.intent, r.tool_output, r.safety_check.approved)) =
      some ("emi_calculation",
        ToolOutput.emi { emi_amount := 3150279 / 100, total_payment := 47254188 / 25,
                         total_interest := 9754188 / 25 },
        false)) :=
  ⟨by decide,
    emi_dispatch_constants []
      { query := "emi for car", user_income := some 600000, max_budget := none } (by decide)⟩

/-- C7 counterexample: with the catalog containing only the "Maruti Alto"
record, the request `{query: "find alto"}` classifies as car_search but the
lookup misses (the whole raw query "find alto" is not a substring of
"Maruti Alto"), so `tool_output` is the absent result, not the record. -/
theorem find_alto_counterexample :
    process_user_query [altoCar] { query := "find alto", user_income := none, max_budget := none } =
      some { intent := "car_search", user_query := "find alto",
             tool_output := ToolOutput.car none,
             safety_check := { approved := true, message := "Car found" },
             recommended_action := "Processed car search successfully" } ∧
    ToolOutput.car none ≠ ToolOutput.car (some altoCar) := by
  constructor
  · rw [process_search_eq _ _ (by decide)]
    rfl
  · simp

/-- C7 (amended): processing `{query: "find alto"}` on a catalog holding the
"Maruti Alto" record returns intent car_search with an absent `tool_output`,
because the car_search branch passes the entire raw query string to the
lookup and "find alto" is not a substring of "Maruti Alto"; the bare query
"alto" would return the record. -/
theorem find_alto_dispatch :
    process_user_query [altoCar] { query := "find alto", user_income := none, max_budget := none } =
      some { intent := "car_search", user_query := "find alto",
             tool_output := ToolOutput.car none,
             safety_check := { approved := true, message := "Car found" },
             recommended_action := "Processed car search successfully" } ∧
    get_car_by_name [altoCar] "find alto" = none ∧
    get_car_by_name [altoCar] "alto" = some altoCar := by
  refine ⟨?_, rfl, rfl⟩
  rw [process_search_eq _ _ (by decide)]
  rfl

end CarAdvisor
